import Mathlib

/-!
Verification of the Intent Classification API backend (src/backend/app.py).

The backend is a thin orchestration layer: a shared fitted vectorizer and
three named classifiers are loaded at startup, and five HTTP handlers
(`/`, `/models`, `/predict`, `/predict-all`, `/health`) validate input,
vectorize text, dispatch predictions and serialize responses.

The embedding is parameterized over the feature-vector type `α` and over
the opaque loaded artifacts (the vectorizer and the three classifier
objects), each modelled as a fallible function (`Except String _`), since
any of them may raise an exception when invoked.  Handlers are translated
from the source line by line; each prediction handler is written as a
`*_core` function that also returns the list of artifact invocations it
performed, so that ordering and "no invocation" properties can be stated.
-/

/-- Strips leading whitespace characters from a character list, as Python
`str.strip` does on each end of a string. -/
def dropWhileWs : List Char → List Char
  | [] => []
  | c :: cs => if c.isWhitespace then dropWhileWs cs else c :: cs

/-- Models Python `str.strip()` (used in the source only as
`request.text.strip()` / `text.strip()`): removes whitespace from both
ends of the string. -/
def pyStrip (s : String) : String :=
  ⟨(dropWhileWs ((dropWhileWs s.data).reverse)).reverse⟩

/-- A single-quote character, used to build Python-style `repr` strings
for the error messages produced by the source. -/
def pyQuote : String := (Char.ofNat 39).toString

/-- Python `repr` of a list of strings, as produced by
`f"... {list(MODELS.keys())}"` in the source. -/
def pyStrListRepr (xs : List String) : String :=
  "[" ++ String.intercalate ", " (xs.map (fun s => pyQuote ++ s ++ pyQuote)) ++ "]"

/-- The fitted vectorizer artifact (`models/tfidf_vectorizer.pkl`): its
`transform` maps one raw text to a feature vector, or raises. -/
structure Vectorizer (α : Type) where
  transform : String → Except String α

/-- A loaded classifier artifact: its `predict` maps a feature vector to
a list of predicted labels (one per input sample), or raises. -/
structure Model (α : Type) where
  predict : α → Except String (List String)

/-- The process-wide state loaded at startup: the shared vectorizer and
the three classifier objects. -/
structure Env (α : Type) where
  vectorizer : Vectorizer α
  naive_bayes_model : Model α
  logistic_regression_model : Model α
  linear_svm_model : Model α

/-- The model registry `MODELS`: a fixed mapping from model name to the
loaded classifier instance, in the insertion order of the source dict. -/
def MODELS {α : Type} (env : Env α) : List (String × Model α) :=
  [("naive_bayes", env.naive_bayes_model),
   ("logistic_regression", env.logistic_regression_model),
   ("linear_svm", env.linear_svm_model)]

/-- Request body of `/predict`. -/
structure PredictionRequest where
  text : String
  model_name : String
  deriving DecidableEq, Repr

/-- Response body of `/predict` on success. -/
structure PredictionResponse where
  text : String
  model_name : String
  predicted_intent : String
  deriving DecidableEq, Repr

/-- Outcome of the `/predict` handler: a success response, or an
`HTTPException` with a status code and a detail message. -/
inductive PredictOut where
  | ok (resp : PredictionResponse)
  | httpError (status : Nat) (detail : String)
  deriving DecidableEq, Repr

/-- Response body of `/predict-all` on success: the echoed text and, per
model name, a one-key string dict (`predicted_intent` or `error`). -/
structure AllResponse where
  text : String
  results : List (String × List (String × String))
  deriving DecidableEq, Repr

/-- Outcome of the `/predict-all` handler. -/
inductive AllOut where
  | ok (resp : AllResponse)
  | httpError (status : Nat) (detail : String)
  deriving DecidableEq, Repr

/-- An invocation of a loaded artifact: the shared vectorizer transform,
or a named classifier predict call. -/
inductive Ev where
  | vectorize
  | predictCall (name : String)
  deriving DecidableEq, Repr

/-- Message of the numpy `IndexError` raised by `prediction[0]` when a
classifier returns an empty prediction array. -/
def indexErrorMsg : String := "index 0 is out of bounds for axis 0 with size 0"

/-- Detail message of the HTTP 500 raised by the outer exception handler
of both prediction endpoints. -/
def internalErrorDetail (e : String) : String :=
  "Internal server error during prediction: " ++ e

/-- Detail message of the HTTP 400 raised for an unregistered model
name, enumerating the registry keys. -/
def modelNotFoundDetail {α : Type} (env : Env α) (name : String) : String :=
  "Model " ++ pyQuote ++ name ++ pyQuote ++ " not found. Available models: "
    ++ pyStrListRepr ((MODELS env).map Prod.fst)

/-- Detail message of the HTTP 400 raised for empty input text. -/
def emptyTextDetail : String := "Input text cannot be empty"

/-- The `/predict` handler (`predict_intent` in the source), returning
its outcome together with the artifact invocations it performed, in
order.  Control flow mirrors the source: the model name is validated
against the `MODELS` dict first, then the text is checked to be nonempty
after stripping; only then is the vectorizer invoked and the selected
classifier run; any exception from those calls (including the
`IndexError` from `prediction[0]` on an empty array) is caught by the
outer handler and reported as HTTP 500. -/
def predict_intent_core {α : Type} (env : Env α) (request : PredictionRequest) :
    PredictOut × List Ev :=
  match (MODELS env).lookup request.model_name with
  | none =>
      (.httpError 400 (modelNotFoundDetail env request.model_name), [])
  | some selected_model =>
      if pyStrip request.text = "" then
        (.httpError 400 emptyTextDetail, [])
      else
        match env.vectorizer.transform request.text with
        | .error e => (.httpError 500 (internalErrorDetail e), [.vectorize])
        | .ok X_tfidf =>
            match selected_model.predict X_tfidf with
            | .error e =>
                (.httpError 500 (internalErrorDetail e),
                 [.vectorize, .predictCall request.model_name])
            | .ok [] =>
                (.httpError 500 (internalErrorDetail indexErrorMsg),
                 [.vectorize, .predictCall request.model_name])
            | .ok (p :: _) =>
                (.ok ⟨request.text, request.model_name, p⟩,
                 [.vectorize, .predictCall request.model_name])

/-- Outcome of the `/predict` handler. -/
def predict_intent {α : Type} (env : Env α) (request : PredictionRequest) : PredictOut :=
  (predict_intent_core env request).1

/-- Artifact invocations performed by the `/predict` handler. -/
def predictTrace {α : Type} (env : Env α) (request : PredictionRequest) : List Ev :=
  (predict_intent_core env request).2

/-- The per-model result entry built inside the `/predict-all` loop: a
successful predict call contributes `{"predicted_intent": label}`, and
any exception raised by the call (or by the `prediction[0]` indexing) is
caught and contributes `{"error": message}`. -/
def modelEntry {α : Type} (model : Model α) (X_tfidf : α) : List (String × String) :=
  match model.predict X_tfidf with
  | .error e => [("error", e)]
  | .ok [] => [("error", indexErrorMsg)]
  | .ok (p :: _) => [("predicted_intent", p)]

/-- The `/predict-all` handler (`predict_all_models` in the source),
returning its outcome together with the artifact invocations it
performed, in order.  Control flow mirrors the source: the text is
checked to be nonempty after stripping, then vectorized once; the loop
then runs every registered classifier against that shared vector,
catching each classifier failure individually.  A vectorizer failure
escapes to the outer handler and is reported as HTTP 500. -/
def predict_all_core {α : Type} (env : Env α) (text : String) : AllOut × List Ev :=
  if pyStrip text = "" then
    (.httpError 400 emptyTextDetail, [])
  else
    match env.vectorizer.transform text with
    | .error e => (.httpError 500 (internalErrorDetail e), [.vectorize])
    | .ok X_tfidf =>
        (.ok ⟨text, (MODELS env).map (fun nm => (nm.1, modelEntry nm.2 X_tfidf))⟩,
         .vectorize :: (MODELS env).map (fun nm => .predictCall nm.1))

/-- Outcome of the `/predict-all` handler. -/
def predict_all_models {α : Type} (env : Env α) (text : String) : AllOut :=
  (predict_all_core env text).1

/-- Artifact invocations performed by the `/predict-all` handler. -/
def allTrace {α : Type} (env : Env α) (text : String) : List Ev :=
  (predict_all_core env text).2

/-- Response body of `/models`. -/
structure ModelsResponse where
  models : List String
  description : List (String × String)
  deriving DecidableEq, Repr

/-- The `/models` handler (`get_available_models` in the source). -/
def get_available_models {α : Type} (env : Env α) : ModelsResponse :=
  { models := (MODELS env).map Prod.fst
  , description :=
      [("naive_bayes", "Naive Bayes Classifier"),
       ("logistic_regression", "Logistic Regression Classifier"),
       ("linear_svm", "Linear Support Vector Machine")] }

/-- Response body of `/health`. -/
structure HealthResponse where
  status : String
  models_loaded : Nat
  deriving DecidableEq, Repr

/-- The `/health` handler (`health_check` in the source). -/
def health_check {α : Type} (env : Env α) : HealthResponse :=
  { status := "healthy", models_loaded := (MODELS env).length }

/-- The `/` handler (`root` in the source). -/
def rootHandler : String := "Intent Classification API is running"

/-- A request to any of the five endpoints. -/
inductive Request where
  | root
  | models
  | predict (request : PredictionRequest)
  | predictAll (text : String)
  | health

/-- A response from any of the five endpoints. -/
inductive Response where
  | rootMsg (message : String)
  | modelsResp (resp : ModelsResponse)
  | predictResp (out : PredictOut)
  | predictAllResp (out : AllOut)
  | healthResp (resp : HealthResponse)

/-- Dispatches one request to its handler.  Every handler in the source
only reads the module-level globals (`vectorizer`, the three loaded
models, `MODELS`) and never assigns to them, so the process state after
the call is the state before it. -/
def handle {α : Type} (env : Env α) : Request → Env α × Response
  | .root => (env, .rootMsg rootHandler)
  | .models => (env, .modelsResp (get_available_models env))
  | .predict request => (env, .predictResp (predict_intent env request))
  | .predictAll text => (env, .predictAllResp (predict_all_models env text))
  | .health => (env, .healthResp (health_check env))

/-- Process state after serving a sequence of requests. -/
def run {α : Type} (env : Env α) (rs : List Request) : Env α :=
  rs.foldl (fun e r => (handle e r).1) env

/-- A classifier that always predicts the label `greeting`. -/
def okModel : Model Nat := ⟨fun _ => Except.ok ["greeting"]⟩

/-- A classifier whose predict call always raises. -/
def failModel : Model Nat := ⟨fun _ => Except.error "predict failed"⟩

/-- A fully healthy environment over `Nat` feature vectors. -/
def okEnv : Env Nat := ⟨⟨fun s => Except.ok s.length⟩, okModel, okModel, okModel⟩

/-- An environment whose logistic-regression classifier raises. -/
def mixedEnv : Env Nat := ⟨⟨fun s => Except.ok s.length⟩, okModel, failModel, okModel⟩

/-- An environment whose shared vectorizer raises. -/
def badVecEnv : Env Nat := ⟨⟨fun _ => Except.error "transform failed"⟩, okModel, okModel, okModel⟩

/-- Serving one request leaves the process state unchanged: no handler
assigns to the module-level globals. -/
theorem handle_fst {α : Type} (env : Env α) (r : Request) : (handle env r).1 = env := by
  cases r <;> rfl

/-- Serving any request sequence leaves the process state unchanged. -/
theorem run_preserves_env {α : Type} (env : Env α) (rs : List Request) : run env rs = env := by
  induction rs with
  | nil => rfl
  | cons r rs ih => simp [run, List.foldl_cons, handle_fst]

/-- A name outside the three registry keys has no entry in `MODELS`. -/
theorem MODELS_lookup_eq_none {α : Type} (env : Env α) (name : String)
    (h : name ∉ (["naive_bayes", "logistic_regression", "linear_svm"] : List String)) :
    (MODELS env).lookup name = none := by
  simp only [List.mem_cons, List.not_mem_nil, or_false, not_or] at h
  obtain ⟨h1, h2, h3⟩ := h
  have e1 : (name == "naive_bayes") = false := beq_eq_false_iff_ne.mpr h1
  have e2 : (name == "logistic_regression") = false := beq_eq_false_iff_ne.mpr h2
  have e3 : (name == "linear_svm") = false := beq_eq_false_iff_ne.mpr h3
  simp only [ MODELS, List.lookup, e1, e2, e3]

/-- C1: for every request whose model name is registered and whose text is
non-empty after trimming, `/predict` vectorizes the text with the shared
vectorizer, runs the named classifier on the resulting vector, and returns
the echoed text and model name together with the first element of the
classifier prediction. -/
theorem C1_predict_single_success {α : Type} (env : Env α) (request : PredictionRequest)
    (m : Model α) (v : α) (p : String) (ps : List String)
    (hm : (MODELS env).lookup request.model_name = some m)
    (ht : pyStrip request.text ≠ "")
    (hv : env.vectorizer.transform request.text = Except.ok v)
    (hp : m.predict v = Except.ok (p :: ps)) :
    predict_intent env request = PredictOut.ok ⟨request.text, request.model_name, p⟩ := by
  simp [predict_intent, predict_intent_core, hm, ht, hv, hp]

/-- C1 witness: a concrete healthy environment and a valid request. -/
theorem C1_witness :
    predict_intent okEnv ⟨"book me a flight to paris", "linear_svm"⟩ =
      PredictOut.ok ⟨"book me a flight to paris", "linear_svm", "greeting"⟩ :=
  C1_predict_single_success okEnv ⟨"book me a flight to paris", "linear_svm"⟩ okModel
    25 "greeting" [] rfl (by decide) rfl rfl

/-- C3: `/predict` with an unregistered model name fails with HTTP 400 and
a detail message that enumerates exactly the three valid model names. -/
theorem C3_unknown_model_error {α : Type} (env : Env α) (request : PredictionRequest)
    (h : request.model_name ∉ (["naive_bayes", "logistic_regression", "linear_svm"] : List String)) :
    predict_intent env request =
      PredictOut.httpError 400
        ("Model " ++ pyQuote ++ request.model_name ++ pyQuote
          ++ " not found. Available models: "
          ++ ("[" ++ pyQuote ++ "naive_bayes" ++ pyQuote ++ ", "
              ++ pyQuote ++ "logistic_regression" ++ pyQuote ++ ", "
              ++ pyQuote ++ "linear_svm" ++ pyQuote ++ "]")) := by
  have hk : (MODELS env).map Prod.fst = ["naive_bayes", "logistic_regression", "linear_svm"] := rfl
  have hrepr : pyStrListRepr ((MODELS env).map Prod.fst)
      = "[" ++ pyQuote ++ "naive_bayes" ++ pyQuote ++ ", "
          ++ pyQuote ++ "logistic_regression" ++ pyQuote ++ ", "
          ++ pyQuote ++ "linear_svm" ++ pyQuote ++ "]" := by rw [hk]; decide
  simp [predict_intent, predict_intent_core, MODELS_lookup_eq_none env request.model_name h,
        modelNotFoundDetail, hrepr]

/-- C3 witness: the spec example request with model name random_forest. -/
theorem C3_witness :
    predict_intent okEnv ⟨"hello", "random_forest"⟩ =
      PredictOut.httpError 400
        ("Model " ++ pyQuote ++ "random_forest" ++ pyQuote
          ++ " not found. Available models: "
          ++ ("[" ++ pyQuote ++ "naive_bayes" ++ pyQuote ++ ", "
              ++ pyQuote ++ "logistic_regression" ++ pyQuote ++ ", "
              ++ pyQuote ++ "linear_svm" ++ pyQuote ++ "]")) :=
  C3_unknown_model_error okEnv ⟨"hello", "random_forest"⟩ (by decide)

/-- C4: empty or whitespace-only text makes both `/predict` (for any model
name) and `/predict-all` fail with HTTP 400 while invoking neither the
vectorizer nor any classifier. -/
theorem C4_empty_text_rejected {α : Type} (env : Env α) (request : PredictionRequest)
    (text : String) (h1 : pyStrip request.text = "") (h2 : pyStrip text = "") :
    (∃ d, predict_intent env request = PredictOut.httpError 400 d)
      ∧ predictTrace env request = []
      ∧ predict_all_models env text = AllOut.httpError 400 "Input text cannot be empty"
      ∧ allTrace env text = [] := by
  refine ⟨?_, ?_, ?_, ?_⟩
  · cases hl : (MODELS env).lookup request.model_name with
    | none =>
        exact ⟨modelNotFoundDetail env request.model_name,
               by simp [predict_intent, predict_intent_core, hl]⟩
    | some m =>
        exact ⟨emptyTextDetail, by simp [predict_intent, predict_intent_core, hl, h1]⟩
  · cases hl : (MODELS env).lookup request.model_name with
    | none => simp [predictTrace, predict_intent_core, hl]
    | some m => simp [predictTrace, predict_intent_core, hl, h1]
  · simp [predict_all_models, predict_all_core, h2, emptyTextDetail]
  · simp [allTrace, predict_all_core, h2]

/-- C4 witness: whitespace-only text for `/predict`, empty text for
`/predict-all`. -/
theorem C4_witness :
    (∃ d, predict_intent okEnv ⟨"   ", "naive_bayes"⟩ = PredictOut.httpError 400 d)
      ∧ predictTrace okEnv ⟨"   ", "naive_bayes"⟩ = []
      ∧ predict_all_models okEnv "" = AllOut.httpError 400 "Input text cannot be empty"
      ∧ allTrace okEnv "" = [] :=
  C4_empty_text_rejected okEnv ⟨"   ", "naive_bayes"⟩ "" (by decide) (by decide)

/-- C5: a request that fails validation (unknown model name, or text that
is empty after stripping) is answered with HTTP 400 and triggers no
vectorizer or classifier invocation at all. -/
theorem C5_no_invocation_on_invalid {α : Type} (env : Env α) (request : PredictionRequest)
    (h : request.model_name ∉ (["naive_bayes", "logistic_regression", "linear_svm"] : List String)
         ∨ pyStrip request.text = "") :
    predictTrace env request = []
      ∧ ∃ d, predict_intent env request = PredictOut.httpError 400 d := by
  rcases h with h | h
  · have hl := MODELS_lookup_eq_none env request.model_name h
    exact ⟨by simp [predictTrace, predict_intent_core, hl],
           modelNotFoundDetail env request.model_name,
           by simp [predict_intent, predict_intent_core, hl]⟩
  · cases hl : (MODELS env).lookup request.model_name with
    | none =>
        exact ⟨by simp [predictTrace, predict_intent_core, hl],
               modelNotFoundDetail env request.model_name,
               by simp [predict_intent, predict_intent_core, hl]⟩
    | some m =>
        exact ⟨by simp [predictTrace, predict_intent_core, hl, h],
               emptyTextDetail, by simp [predict_intent, predict_intent_core, hl, h]⟩

/-- C5 witness: an unknown model name with non-empty text. -/
theorem C5_witness :
    predictTrace okEnv ⟨"hello", "random_forest"⟩ = []
      ∧ ∃ d, predict_intent okEnv ⟨"hello", "random_forest"⟩ = PredictOut.httpError 400 d :=
  C5_no_invocation_on_invalid okEnv ⟨"hello", "random_forest"⟩ (Or.inl (by decide))

/-- Every per-model entry of `/predict-all` is a one-key dict: a
predicted label on success, an error message on failure. -/
theorem modelEntry_shape {α : Type} (m : Model α) (v : α) :
    (∃ p, modelEntry m v = [("predicted_intent", p)])
      ∨ (∃ msg, modelEntry m v = [("error", msg)]) := by
  rcases hp : m.predict v with e | ls
  · exact Or.inr ⟨e, by simp [modelEntry, hp]⟩
  · rcases ls with _ | ⟨p, ps⟩
    · exact Or.inr ⟨indexErrorMsg, by simp [modelEntry, hp]⟩
    · exact Or.inl ⟨p, by simp [modelEntry, hp]⟩

/-- A classifier failure yields exactly the error entry of its message. -/
theorem modelEntry_error {α : Type} (m : Model α) (v : α) (msg : String)
    (h : m.predict v = Except.error msg) : modelEntry m v = [("error", msg)] := by
  simp [modelEntry, h]

/-- A successful classifier prediction yields the intent entry of the
first predicted label. -/
theorem modelEntry_success {α : Type} (m : Model α) (v : α) (p : String) (ps : List String)
    (h : m.predict v = Except.ok (p :: ps)) : modelEntry m v = [("predicted_intent", p)] := by
  simp [modelEntry, h]

/-- C2: for non-empty (after stripping) text whose shared vectorization
succeeds, `/predict-all` returns results for all three registered model
names, each entry being exactly a predicted-intent dict or an error dict;
each classifier failure is recorded as that model entry without aborting
the request, and other classifiers still contribute their predictions. -/
theorem C2_predict_all_partial_results {α : Type} (env : Env α) (text : String) (v : α)
    (ht : pyStrip text ≠ "")
    (hv : env.vectorizer.transform text = Except.ok v) :
    ∃ resp, predict_all_models env text = AllOut.ok resp
      ∧ resp.results.map Prod.fst = ["naive_bayes", "logistic_regression", "linear_svm"]
      ∧ (∀ entry ∈ resp.results,
           (∃ p, entry.2 = [("predicted_intent", p)]) ∨ (∃ msg, entry.2 = [("error", msg)]))
      ∧ (∀ name model, (name, model) ∈ MODELS env → ∀ msg,
           model.predict v = Except.error msg →
             resp.results.lookup name = some [("error", msg)])
      ∧ (∀ name model, (name, model) ∈ MODELS env → ∀ p ps,
           model.predict v = Except.ok (p :: ps) →
             resp.results.lookup name = some [("predicted_intent", p)]) := by
  have e21 : ("logistic_regression" == "naive_bayes") = false := by decide
  have e31 : ("linear_svm" == "naive_bayes") = false := by decide
  have e32 : ("linear_svm" == "logistic_regression") = false := by decide
  refine ⟨⟨text, (MODELS env).map (fun nm => (nm.1, modelEntry nm.2 v))⟩, ?_, ?_, ?_, ?_, ?_⟩
  · simp [predict_all_models, predict_all_core, ht, hv]
  · simp [ MODELS]
  · intro entry hmem
    simp only [ MODELS, List.map_cons, List.map_nil, List.mem_cons, List.not_mem_nil,
               or_false] at hmem
    rcases hmem with h | h | h <;> subst h <;>
      simpa using modelEntry_shape _ v
  · intro name model hmem msg hpred
    simp only [ MODELS, List.mem_cons, List.not_mem_nil, or_false, Prod.mk.injEq] at hmem
    rcases hmem with ⟨rfl, rfl⟩ | ⟨rfl, rfl⟩ | ⟨rfl, rfl⟩
    · simp [ MODELS, List.lookup, modelEntry_error _ _ _ hpred]
    · simp [ MODELS, List.lookup, e21, modelEntry_error _ _ _ hpred]
    · simp [ MODELS, List.lookup, e31, e32, modelEntry_error _ _ _ hpred]
  · intro name model hmem p ps hpred
    simp only [ MODELS, List.mem_cons, List.not_mem_nil, or_false, Prod.mk.injEq] at hmem
    rcases hmem with ⟨rfl, rfl⟩ | ⟨rfl, rfl⟩ | ⟨rfl, rfl⟩
    · simp [ MODELS, List.lookup, modelEntry_success _ _ _ _ hpred]
    · simp [ MODELS, List.lookup, e21, modelEntry_success _ _ _ _ hpred]
    · simp [ MODELS, List.lookup, e31, e32, modelEntry_success _ _ _ _ hpred]

/-- C2 witness: an environment whose logistic-regression classifier
raises while the two other classifiers succeed. -/
theorem C2_witness :
    ∃ resp, predict_all_models mixedEnv "hi" = AllOut.ok resp
      ∧ resp.results.map Prod.fst = ["naive_bayes", "logistic_regression", "linear_svm"]
      ∧ (∀ entry ∈ resp.results,
           (∃ p, entry.2 = [("predicted_intent", p)]) ∨ (∃ msg, entry.2 = [("error", msg)]))
      ∧ (∀ name model, (name, model) ∈ MODELS mixedEnv → ∀ msg,
           model.predict 2 = Except.error msg →
             resp.results.lookup name = some [("error", msg)])
      ∧ (∀ name model, (name, model) ∈ MODELS mixedEnv → ∀ p ps,
           model.predict 2 = Except.ok (p :: ps) →
             resp.results.lookup name = some [("predicted_intent", p)]) :=
  C2_predict_all_partial_results mixedEnv "hi" 2 (by decide) rfl

/-- C6: the registry, the loaded classifiers and the vectorizer are never
mutated by any request: after serving any sequence of requests to the
five endpoints, the process state is the startup state, and the set of
valid model names is still exactly the three configured ones. -/
theorem C6_registry_fixed {α : Type} (env : Env α) (rs : List Request) :
    run env rs = env
      ∧ (MODELS (run env rs)).map Prod.fst
          = ["naive_bayes", "logistic_regression", "linear_svm"] :=
  ⟨run_preserves_env env rs, by rw [run_preserves_env]; rfl⟩

/-- C7: `/models` always returns exactly the three configured names with
their static non-empty descriptions, identically after any request
history. -/
theorem C7_models_listing_static {α : Type} (env : Env α) (rs : List Request) :
    get_available_models (run env rs) = get_available_models env
      ∧ (get_available_models (run env rs)).models
          = ["naive_bayes", "logistic_regression", "linear_svm"]
      ∧ (get_available_models (run env rs)).description
          = [("naive_bayes", "Naive Bayes Classifier"),
             ("logistic_regression", "Logistic Regression Classifier"),
             ("linear_svm", "Linear Support Vector Machine")]
      ∧ (get_available_models (run env rs)).description.map Prod.fst
          = (get_available_models (run env rs)).models
      ∧ ((get_available_models (run env rs)).description.all fun p => !p.2.isEmpty) = true := by
  rw [run_preserves_env]
  exact ⟨rfl, rfl, rfl, rfl, rfl⟩

/-- C8: `/health` reports status healthy and three loaded models on every
call, after any request history. -/
theorem C8_health_reports_three {α : Type} (env : Env α) (rs : List Request) :
    health_check (run env rs) = ⟨"healthy", 3⟩ := by
  rw [run_preserves_env]; rfl

/-- The unknown-model detail message is never the empty-text detail
message: the former is strictly longer. -/
theorem modelNotFoundDetail_ne_emptyTextDetail {α : Type} (env : Env α) (name : String) :
    modelNotFoundDetail env name ≠ emptyTextDetail := by
  intro hcontra
  have hlen := congrArg String.length hcontra
  simp only [modelNotFoundDetail, emptyTextDetail, String.length_append] at hlen
  have h6 : ("Model ").length = 6 := rfl
  have hq : pyQuote.length = 1 := rfl
  have h30 : (" not found. Available models: ").length = 30 := rfl
  have h26 : ("Input text cannot be empty").length = 26 := rfl
  rw [h6, hq, h30, h26] at hlen
  omega

/-- C9: when the model name is unknown and the text is empty after
stripping, `/predict` returns the unknown-model error with its
enumerating message — the model-name check runs before the text check —
and not the empty-text error. -/
theorem C9_model_check_precedes_text_check {α : Type} (env : Env α)
    (request : PredictionRequest)
    (h1 : request.model_name ∉ (["naive_bayes", "logistic_regression", "linear_svm"] : List String))
    (_h2 : pyStrip request.text = "") :
    predict_intent env request
        = PredictOut.httpError 400 (modelNotFoundDetail env request.model_name)
      ∧ modelNotFoundDetail env request.model_name
          = "Model " ++ pyQuote ++ request.model_name ++ pyQuote
              ++ " not found. Available models: "
              ++ ("[" ++ pyQuote ++ "naive_bayes" ++ pyQuote ++ ", "
                  ++ pyQuote ++ "logistic_regression" ++ pyQuote ++ ", "
                  ++ pyQuote ++ "linear_svm" ++ pyQuote ++ "]")
      ∧ predict_intent env request ≠ PredictOut.httpError 400 emptyTextDetail := by
  have hl := MODELS_lookup_eq_none env request.model_name h1
  have hfst : predict_intent env request
      = PredictOut.httpError 400 (modelNotFoundDetail env request.model_name) := by
    simp [predict_intent, predict_intent_core, hl]
  have hk : (MODELS env).map Prod.fst = ["naive_bayes", "logistic_regression", "linear_svm"] := rfl
  have hrepr : pyStrListRepr ((MODELS env).map Prod.fst)
      = "[" ++ pyQuote ++ "naive_bayes" ++ pyQuote ++ ", "
          ++ pyQuote ++ "logistic_regression" ++ pyQuote ++ ", "
          ++ pyQuote ++ "linear_svm" ++ pyQuote ++ "]" := by rw [hk]; decide
  refine ⟨hfst, by simp only [modelNotFoundDetail, hrepr], ?_⟩
  rw [hfst]
  intro hcontra
  exact modelNotFoundDetail_ne_emptyTextDetail env request.model_name
    (PredictOut.httpError.injEq .. |>.mp hcontra).2

/-- C9 witness: empty text together with an unknown model name. -/
theorem C9_witness :
    predict_intent okEnv ⟨"", "random_forest"⟩
        = PredictOut.httpError 400 (modelNotFoundDetail okEnv "random_forest")
      ∧ modelNotFoundDetail okEnv "random_forest"
          = "Model " ++ pyQuote ++ "random_forest" ++ pyQuote
              ++ " not found. Available models: "
              ++ ("[" ++ pyQuote ++ "naive_bayes" ++ pyQuote ++ ", "
                  ++ pyQuote ++ "logistic_regression" ++ pyQuote ++ ", "
                  ++ pyQuote ++ "linear_svm" ++ pyQuote ++ "]")
      ∧ predict_intent okEnv ⟨"", "random_forest"⟩ ≠ PredictOut.httpError 400 emptyTextDetail :=
  C9_model_check_precedes_text_check okEnv ⟨"", "random_forest"⟩ (by decide) (by decide)

/-- C10: on validated text, `/predict-all` invokes the vectorizer exactly
once, before any classifier call; and a vectorizer failure is not
downgraded to per-model error entries but aborts the request with HTTP
500 carrying the underlying message. -/
theorem C10_vectorize_once_and_fatal {α : Type} (env : Env α) (text : String)
    (h : pyStrip text ≠ "") :
    (allTrace env text).count Ev.vectorize = 1
      ∧ (∃ rest, allTrace env text = Ev.vectorize :: rest
           ∧ ∀ e ∈ rest, ∃ n, e = Ev.predictCall n)
      ∧ ∀ msg, env.vectorizer.transform text = Except.error msg →
          predict_all_models env text
              = AllOut.httpError 500 ("Internal server error during prediction: " ++ msg)
            ∧ allTrace env text = [Ev.vectorize] := by
  rcases hv : env.vectorizer.transform text with msg | v
  · have htr : allTrace env text = [Ev.vectorize] := by
      simp [allTrace, predict_all_core, h, hv]
    refine ⟨by rw [htr]; decide, ⟨[], by rw [htr], by simp⟩, ?_⟩
    intro msg2 hmsg
    injection hmsg with hmsg
    subst hmsg
    refine ⟨?_, htr⟩
    simp [predict_all_models, predict_all_core, h, hv, internalErrorDetail]
  · have htr : allTrace env text
        = [Ev.vectorize, Ev.predictCall "naive_bayes",
           Ev.predictCall "logistic_regression", Ev.predictCall "linear_svm"] := by
      simp [allTrace, predict_all_core, h, hv, MODELS]
    refine ⟨by rw [htr]; decide, ⟨_, by rw [htr], ?_⟩, ?_⟩
    · intro e he
      simp only [List.mem_cons, List.not_mem_nil, or_false] at he
      rcases he with rfl | rfl | rfl
      · exact ⟨"naive_bayes", rfl⟩
      · exact ⟨"logistic_regression", rfl⟩
      · exact ⟨"linear_svm", rfl⟩
    · intro msg hmsg
      exact absurd hmsg (by simp)

/-- C10 witness: an environment whose shared vectorizer raises. -/
theorem C10_witness :
    (allTrace badVecEnv "hello").count Ev.vectorize = 1
      ∧ predict_all_models badVecEnv "hello"
          = AllOut.httpError 500 ("Internal server error during prediction: " ++ "transform failed")
      ∧ allTrace badVecEnv "hello" = [Ev.vectorize] := by
  have h := C10_vectorize_once_and_fatal badVecEnv "hello" (by decide)
  have h2 := h.2.2 "transform failed" rfl
  exact ⟨h.1, h2.1, h2.2⟩
